import Mathlib

/-!
# Shallow embedding of the TradingView-alerts reconciliation engine

Each definition below embeds one Python function of the repository
(file and function named in its doc comment).  Machine floats are
modelled with `ℚ`; side-effecting exchange calls are modelled by
explicit event traces (`XEv`), and mutable object state by explicit
state records threaded through the functions.
-/

/-- `src/models/signal.py`, `ActionType`: the two signal directions. -/
inductive ActionType
  | buy
  | sell
deriving DecidableEq, Repr

/-- Exchange position side, the `'Buy' | 'Sell'` strings returned by
`get_current_position` (`src/exchanges/base_exchange.py`). -/
inductive PositionSide
  | Buy
  | Sell
deriving DecidableEq, Repr

/-- `src/models/signal.py`, `TradingSignal` dataclass. -/
structure TradingSignal where
  strategy_name : String
  symbol : String
  timeframe : String
  action : ActionType
deriving DecidableEq, Repr

/-! ## Duplicate filter (`src/strategies/pivot_reversal/filter.py`) -/

/-- `PivotReversalFilter.should_process`: given the mutable
`last_action` field and the incoming signal's action, returns the
decision together with the updated `last_action` state. -/
def should_process (last_action : Option ActionType) (a : ActionType) :
    Bool × Option ActionType :=
  match last_action with
  | none => (true, some a)
  | some l => if l = a then (false, some l) else (true, some a)

/-- Feeding a list of signal actions through the filter, collecting the
accept/reject decision of each call to `should_process`. -/
def runFilter : Option ActionType → List ActionType → List Bool
  | _, [] => []
  | st, a :: rest =>
      let r := should_process st a
      r.1 :: runFilter r.2 rest

/-- The opposite direction, used to build alternating signal lists. -/
def otherAction : ActionType → ActionType
  | .buy => .sell
  | .sell => .buy

/-- An alternating list of actions of length `n` starting with `a`. -/
def altList (a : ActionType) : Nat → List ActionType
  | 0 => []
  | n + 1 => a :: altList (otherAction a) n

/-! ## Symbol normalization (`src/exchanges/base_exchange.py`) -/

/-- Python `str.endswith`, modelled on the character lists. -/
def endswith (s suffix : String) : Bool :=
  suffix.data.isSuffixOf s.data

/-- The character set passed to `rstrip` in `normalize_symbol`:
Python `rstrip('.P')` strips trailing characters from `{'.', 'P'}`. -/
def isDotP (c : Char) : Bool :=
  c = '.' || c = 'P'

/-- Python `symbol.rstrip('.P')`: remove all trailing characters that
belong to the set `{'.', 'P'}`. -/
def rstripDotP (l : List Char) : List Char :=
  (l.reverse.dropWhile isDotP).reverse

/-- `BaseExchange.normalize_symbol`:
`symbol.rstrip('.P') if symbol.endswith('.P') else symbol`. -/
def normalize_symbol (s : String) : String :=
  if endswith s ".P" then String.mk (rstripDotP s.data) else s

/-! ## Retry handler (`src/exchanges/retry_handler.py`) -/

/-- Events produced by the retry wrapper: an invocation of the wrapped
operation (tagged with its 0-based attempt number) and the fixed
`time.sleep(delay)` between attempts. -/
inductive RetryEv
  | call (attempt : Nat)
  | sleepDelay
deriving DecidableEq, Repr

/-- The `for attempt in range(max_retries)` loop of
`retry_on_api_error`.  `op n` is the outcome of the `n`-th invocation
of the wrapped function; `fuel` is the number of remaining loop
iterations (`max_retries - attempt`); `last` models the
`last_exception` variable.  When the loop ends without returning,
Python raises `last_exception`; the error payload `none` corresponds
to raising the initial `None` (only reachable when `max_retries = 0`).
The sleep happens only when `attempt < max_retries - 1`, written here
as `attempt + 1 < max_retries`. -/
def retryGo {E A : Type} (op : Nat → Except E A) (max_retries : Nat) :
    Nat → Nat → Option E → List RetryEv × Except (Option E) A
  | _, 0, last => ([], .error last)
  | attempt, fuel + 1, _ =>
      match op attempt with
      | .ok a => ([.call attempt], .ok a)
      | .error e =>
          let rest := retryGo op max_retries (attempt + 1) fuel (some e)
          (.call attempt ::
            ((if attempt + 1 < max_retries then [.sleepDelay] else []) ++ rest.1),
           rest.2)

/-- `retry_on_api_error(max_retries, delay)` applied to an operation:
run the retry loop from attempt 0 with `last_exception = None`. -/
def retry_on_api_error {E A : Type} (op : Nat → Except E A) (max_retries : Nat) :
    List RetryEv × Except (Option E) A :=
  retryGo op max_retries 0 max_retries none

/-- Number of invocations of the wrapped operation in a retry trace. -/
def countCalls : List RetryEv → Nat
  | [] => 0
  | .call _ :: rest => countCalls rest + 1
  | .sleepDelay :: rest => countCalls rest

/-- Expected trace of `n` consecutive failing attempts starting at
attempt `s`: a call per attempt, with one sleep after every attempt
except the final one of the whole loop. -/
def retryFailTrace (max_retries : Nat) : Nat → Nat → List RetryEv
  | _, 0 => []
  | s, n + 1 =>
      RetryEv.call s ::
        ((if s + 1 < max_retries then [RetryEv.sleepDelay] else []) ++
          retryFailTrace max_retries (s + 1) n)

/-! ## Position monitor (`src/strategies/pivot_reversal_sl/position_monitor.py`) -/

/-- Observable exchange / system actions, in execution order.  They
model the calls made by `PositionMonitor` and the two strategies:
Binance REST calls, the price WebSocket, thread start and the
`time.sleep` pauses. -/
inductive XEv
  | getPosition
  | closePosition
  | openLong
  | openShort
  | getBalance
  | stopWebSocket
  | cancelOrder
  | placeStopOrder (stop_price limit_price : ℚ)
  | startMonitorThread
  | sleepPause
deriving DecidableEq, Repr

/-- The `strategies.pivot_reversal_sl` configuration block loaded by
`PositionMonitor._load_config`. -/
structure MonitorConfig where
  pnl_threshold_percent : ℚ
  stop_loss_percent : ℚ
  price_difference_usdt : ℚ
  position_fetch_delay : ℚ
deriving DecidableEq, Repr

/-- The `position_data` dict built by
`PositionMonitor._fetch_position_data`. -/
structure PositionData where
  entry_price : ℚ
  size : ℚ
  side : PositionSide
  margin_used : ℚ
deriving DecidableEq, Repr

/-- The mutable fields of `PositionMonitor`. -/
structure PMState where
  symbol : Option String
  position_data : Option PositionData
  stop_loss_order_id : Option Nat
  is_monitoring : Bool
deriving DecidableEq, Repr

/-- `PositionMonitor._calculate_pnl`: price difference (direction
depending on the side) times the position size. -/
def calculate_pnl (pd : PositionData) (current_price : ℚ) : ℚ :=
  let price_diff :=
    if pd.side = PositionSide.Buy then current_price - pd.entry_price
    else pd.entry_price - current_price
  price_diff * pd.size

/-- `PositionMonitor._calculate_margin_used`:
`(entry_price * size) / leverage`. -/
def calculate_margin_used (leverage entry_price size : ℚ) : ℚ :=
  (entry_price * size) / leverage

/-- `PositionMonitor._calculate_pnl_percent`:
`(pnl_usdt / margin_used) * 100`. -/
def calculate_pnl_percent (pd : PositionData) (pnl_usdt : ℚ) : ℚ :=
  (pnl_usdt / pd.margin_used) * 100

/-- Python 3 `round(·)` to an integer: round half to even. -/
def roundHalfEven (q : ℚ) : ℤ :=
  let f := ⌊q⌋
  let r := q - (f : ℚ)
  if r < 1/2 then f
  else if 1/2 < r then f + 1
  else if f % 2 = 0 then f else f + 1

/-- `PositionMonitor._round_price`: Python `round(price, 2)`. -/
def round_price (price : ℚ) : ℚ :=
  (roundHalfEven (price * 100) : ℚ) / 100

/-- The stop and limit price computation of
`PositionMonitor._place_stop_loss_order`: the stop is offset from the
entry by `stop_loss_percent` in the position's favor, the limit is
offset from the (unrounded) stop by `price_difference_usdt`, and both
are then rounded to two decimals. -/
def place_stop_prices (cfg : MonitorConfig) (pd : PositionData) : ℚ × ℚ :=
  if pd.side = PositionSide.Buy then
    let stop_price := pd.entry_price + pd.entry_price * cfg.stop_loss_percent / 100
    let limit_price := stop_price - cfg.price_difference_usdt
    (round_price stop_price, round_price limit_price)
  else
    let stop_price := pd.entry_price - pd.entry_price * cfg.stop_loss_percent / 100
    let limit_price := stop_price + cfg.price_difference_usdt
    (round_price stop_price, round_price limit_price)

/-- `PositionMonitor._on_price_update`: ignore the tick unless
monitoring with fetched position data; place the stop-loss order
exactly when no order id is recorded and PnL% reached the threshold.
`oid` is the `orderId` of the exchange's response to the placement. -/
def on_price_update (cfg : MonitorConfig) (oid : Nat) (st : PMState)
    (current_price : ℚ) : PMState × List XEv :=
  if st.is_monitoring = false then (st, [])
  else
    match st.position_data with
    | none => (st, [])
    | some pd =>
        let pnl_usdt := calculate_pnl pd current_price
        let pnl_percent := calculate_pnl_percent pd pnl_usdt
        if st.stop_loss_order_id = none ∧ cfg.pnl_threshold_percent ≤ pnl_percent then
          let prices := place_stop_prices cfg pd
          ({ st with stop_loss_order_id := some oid },
           [XEv.placeStopOrder prices.1 prices.2])
        else (st, [])

/-- A sequence of price ticks delivered to `_on_price_update`,
threading the monitor state and collecting the emitted actions. -/
def run_ticks (cfg : MonitorConfig) (oid : Nat) : PMState → List ℚ → PMState × List XEv
  | st, [] => (st, [])
  | st, p :: rest =>
      let r := on_price_update cfg oid st p
      let r2 := run_ticks cfg oid r.1 rest
      (r2.1, r.2 ++ r2.2)

/-- The threshold test of `_on_price_update` as a Boolean predicate on
a single tick. -/
def pnl_triggers (cfg : MonitorConfig) (pd : PositionData) (price : ℚ) : Bool :=
  decide (cfg.pnl_threshold_percent ≤
    calculate_pnl_percent pd (calculate_pnl pd price))

/-- Whether an event is the stop-order placement call. -/
def isPlaceEv : XEv → Bool
  | XEv.placeStopOrder _ _ => true
  | _ => false

/-- Number of `placeStopOrder` calls in a trace. -/
def countPlace (l : List XEv) : Nat :=
  l.countP isPlaceEv

/-- `PositionMonitor.start_monitoring`: refuse when already
monitoring, otherwise record the symbol, raise the flag and spawn the
monitoring thread. -/
def start_monitoring (st : PMState) (symbol : String) : Bool × PMState × List XEv :=
  if st.is_monitoring then (false, st, [])
  else
    (true, { st with symbol := some symbol, is_monitoring := true },
     [XEv.startMonitorThread])

/-- `PositionMonitor.stop_monitoring`: no-op when not monitoring;
otherwise stop the WebSocket, cancel the stop-loss order if one is
resting, and reset the state (`_reset_state`). -/
def stop_monitoring (st : PMState) : PMState × List XEv :=
  if st.is_monitoring = false then (st, [])
  else
    ({ symbol := none, position_data := none, stop_loss_order_id := none,
       is_monitoring := false },
     [XEv.stopWebSocket] ++
       (if st.stop_loss_order_id.isSome then [XEv.cancelOrder] else []))

/-- The concrete scenario of the spec: threshold 5%, stop-loss 1.2%,
price gap 1.0 USDT, settle delay 5 s. -/
def scenarioCfg : MonitorConfig :=
  { pnl_threshold_percent := 5, stop_loss_percent := 6/5,
    price_difference_usdt := 1, position_fetch_delay := 5 }

/-- The concrete scenario position: entry 2000, size 1, LONG,
leverage 10 (margin 200). -/
def scenarioPD : PositionData :=
  { entry_price := 2000, size := 1, side := PositionSide.Buy,
    margin_used := calculate_margin_used 10 2000 1 }

/-- Monitor state for the concrete scenario: active, no stop resting. -/
def scenarioState : PMState :=
  { symbol := some "ETHUSDT", position_data := some scenarioPD,
    stop_loss_order_id := none, is_monitoring := true }

/-! ## Strategies (`src/strategies/pivot_reversal{,_sl}/strategy.py`) -/

/-- Oracle for the exchange collaborator during one `process_signal`
run: the current position side (if any), account balance, configured
position size, and the success of the close / open calls. -/
structure ExchangeOracle where
  position : Option PositionSide
  balance : ℚ
  position_size : ℚ
  close_ok : Bool
  open_ok : Bool
deriving DecidableEq, Repr

/-- `PivotReversalStrategy._open_new_position` (identically
`PivotReversalSLStrategy._open_position_by_signal`): fetch the balance,
fail on insufficient funds, otherwise open long/short per the signal. -/
def open_new_position (ex : ExchangeOracle) (a : ActionType) : Bool × List XEv :=
  if ex.balance < ex.position_size then (false, [XEv.getBalance])
  else
    match a with
    | .buy => (ex.open_ok, [XEv.getBalance, XEv.openLong])
    | .sell => (ex.open_ok, [XEv.getBalance, XEv.openShort])

/-- `PivotReversalStrategy._reverse_position`: close the current
position (abort on failure), settle pause, then reopen. -/
def reverse_position (ex : ExchangeOracle) (a : ActionType) : Bool × List XEv :=
  if ex.close_ok = false then (false, [XEv.closePosition])
  else
    let r := open_new_position ex a
    (r.1, XEv.closePosition :: XEv.sleepPause :: r.2)

/-- `PivotReversalStrategy.process_signal`: fetch the position; open
when absent; explicit no-op (returning `True`) when the side already
matches the signal's direction; reverse otherwise. -/
def pivot_process_signal (ex : ExchangeOracle) (sig : TradingSignal) :
    Bool × List XEv :=
  match ex.position with
  | none =>
      let r := open_new_position ex sig.action
      (r.1, XEv.getPosition :: r.2)
  | some side =>
      if (sig.action = ActionType.buy ∧ side = PositionSide.Buy) ∨
         (sig.action = ActionType.sell ∧ side = PositionSide.Sell) then
        (true, [XEv.getPosition])
      else
        let r := reverse_position ex sig.action
        (r.1, XEv.getPosition :: r.2)

/-- Steps 3–4 of `PivotReversalSLStrategy.process_signal`: open the
new position (fail on insufficient balance or a failed open call),
then start monitoring; a failed `start_monitoring` does not affect the
returned success. -/
def sl_open_and_monitor (ex : ExchangeOracle) (sig : TradingSignal)
    (mon1 : PMState) : Bool × PMState × List XEv :=
  let r := open_new_position ex sig.action
  if r.1 = false then (false, mon1, r.2)
  else
    let s := start_monitoring mon1 sig.symbol
    (true, s.2.1, r.2 ++ s.2.2)

/-- `PivotReversalSLStrategy.process_signal`: stop any active monitor
(cancelling its resting stop order) and pause; close the current
position if present (abort on failure) and pause; open the new
position; start monitoring. -/
def sl_process_signal (mon : PMState) (ex : ExchangeOracle) (sig : TradingSignal) :
    Bool × PMState × List XEv :=
  let stopStep :=
    if mon.is_monitoring then
      let s := stop_monitoring mon
      (s.1, s.2 ++ [XEv.sleepPause])
    else (mon, ([] : List XEv))
  let mon1 := stopStep.1
  match ex.position with
  | some _ =>
      if ex.close_ok = false then
        (false, mon1, stopStep.2 ++ [XEv.getPosition, XEv.closePosition])
      else
        let r := sl_open_and_monitor ex sig mon1
        (r.1, r.2.1,
         stopStep.2 ++ [XEv.getPosition, XEv.closePosition, XEv.sleepPause] ++ r.2.2)
  | none =>
      let r := sl_open_and_monitor ex sig mon1
      (r.1, r.2.1, stopStep.2 ++ [XEv.getPosition] ++ r.2.2)

/-- Events that belong to stopping the previous monitor. -/
def isMonitorStopEv : XEv → Bool
  | XEv.stopWebSocket => true
  | XEv.cancelOrder => true
  | _ => false

/-- Exchange calls made by the reconciliation steps of
`process_signal` (position fetch, close, balance fetch, open). -/
def isReconcileEv : XEv → Bool
  | XEv.getPosition => true
  | XEv.closePosition => true
  | XEv.getBalance => true
  | XEv.openLong => true
  | XEv.openShort => true
  | _ => false

/-- The `close_position` call. -/
def isCloseEv : XEv → Bool
  | XEv.closePosition => true
  | _ => false

/-- The `open_long_position` / `open_short_position` calls. -/
def isOpenEv : XEv → Bool
  | XEv.openLong => true
  | XEv.openShort => true
  | _ => false

/-- Monitor-thread starts. -/
def isStartMonitorEv : XEv → Bool
  | XEv.startMonitorThread => true
  | _ => false

/-- The stop-order cancellation call. -/
def isCancelEv : XEv → Bool
  | XEv.cancelOrder => true
  | _ => false

/-- `pBeforeQ p q tr` holds when every `p`-event of the trace occurs
strictly before every `q`-event: after any `q`-event, no `p`-event
follows. -/
def pBeforeQ (p q : XEv → Bool) : List XEv → Bool
  | [] => true
  | e :: rest =>
      ((!q e) || rest.all (fun x => !p x)) && pBeforeQ p q rest

/-! ## Health monitor (`src/monitoring/health_monitor.py`) -/

/-- The limits fixed in `HealthMonitor.__init__`: `max_memory_mb`,
`max_uptime_hours`, `max_self_test_failures`,
`max_consecutive_failures`. -/
structure HealthLimits where
  max_memory_mb : ℚ
  max_uptime_hours : ℚ
  max_self_test_failures : Nat
  max_consecutive_failures : Nat
deriving DecidableEq, Repr

/-- The hard-coded limits of `HealthMonitor.__init__`: 500 MB, 24 h,
3 self-test failures, 3 consecutive health-check failures. -/
def defaultHealthLimits : HealthLimits :=
  { max_memory_mb := 500, max_uptime_hours := 24,
    max_self_test_failures := 3, max_consecutive_failures := 3 }

/-- The quantities `HealthMonitor.get_health_status` inspects on one
check: current memory, uptime, and the two failure counters. -/
structure HealthState where
  memory_mb : ℚ
  uptime_seconds : ℚ
  self_test_failures : Nat
  consecutive_failures : Nat
deriving DecidableEq, Repr

/-- The `problems` accumulation of `get_health_status` (lines
100–112): the status is `"unhealthy"` iff at least one of the four
conditions holds. -/
def is_unhealthy (cfg : HealthLimits) (st : HealthState) : Bool :=
  decide (st.memory_mb > cfg.max_memory_mb) ||
  decide (st.uptime_seconds > cfg.max_uptime_hours * 3600) ||
  decide (st.self_test_failures ≥ cfg.max_self_test_failures) ||
  decide (st.consecutive_failures ≥ cfg.max_consecutive_failures)

/-- `HealthMonitor._should_restart`: `any` of the four critical
conditions — the memory one is doubled, the other three reuse the
unhealthy thresholds verbatim. -/
def should_restart (cfg : HealthLimits) (st : HealthState) : Bool :=
  decide (st.consecutive_failures ≥ cfg.max_consecutive_failures) ||
  decide (st.memory_mb > cfg.max_memory_mb * 2) ||
  decide (st.uptime_seconds > cfg.max_uptime_hours * 3600) ||
  decide (st.self_test_failures ≥ cfg.max_self_test_failures)

/-! ## Alert parsing and routing (`src/strategies/pivot_reversal/parser.py`,
`src/strategies/strategy_manager.py`) -/

/-- Python `\s` on the ASCII characters that occur in alerts. -/
def isWsCh (c : Char) : Bool := c.isWhitespace

/-- Python `str.strip()`: drop leading and trailing whitespace. -/
def pyStrip (s : String) : String :=
  String.mk (((s.data.dropWhile isWsCh).reverse.dropWhile isWsCh).reverse)

/-- Match a literal character sequence at the start of the input,
returning the rest on success. -/
def matchLit : List Char → List Char → Option (List Char)
  | [], input => some input
  | _ :: _, [] => none
  | c :: cs, d :: ds => if d = c then matchLit cs ds else none

/-- Greedy `\d+`: at least one digit, return the rest. -/
def matchDigits1 (l : List Char) : Option (List Char) :=
  if (l.takeWhile Char.isDigit).isEmpty then none
  else some (l.dropWhile Char.isDigit)

/-- The literal part of `PivotReversalParser.STRATEGY_PATTERN`
(`^Стратегия контрольной точки разворота \(\d+,\s*\d+\):`), up to the
opening parenthesis. -/
def pivotHeaderLit : List Char :=
  "Стратегия контрольной точки разворота (".data

/-- The full `STRATEGY_PATTERN` as a prefix matcher (`re.match`):
literal header, `\d+`, `,`, `\s*`, `\d+`, `):`; anything may follow. -/
def matchStrategyHeader (l : List Char) : Bool :=
  match matchLit pivotHeaderLit l with
  | none => false
  | some r1 =>
      match matchDigits1 r1 with
      | none => false
      | some r2 =>
          match matchLit [','] r2 with
          | none => false
          | some r3 =>
              match matchDigits1 (r3.dropWhile isWsCh) with
              | none => false
              | some r4 =>
                  match matchLit [')', ':'] r4 with
                  | none => false
                  | some _ => true

/-- `PivotReversalParser.can_parse`: falsy input is rejected, then the
strategy-family pattern is matched against the stripped message. -/
def can_parse (message : String) : Bool :=
  if message.data.isEmpty then false
  else matchStrategyHeader (pyStrip message).data

/-- Symbol characters after the leading letter:
`[A-Z0-9.]` under `re.IGNORECASE`. -/
def isSymRestCh (c : Char) : Bool := c.isAlpha || c.isDigit || c = '.'

/-- Python `\w` on the ASCII characters that occur in alerts. -/
def isWordCh (c : Char) : Bool := c.isAlpha || c.isDigit || c = '_'

/-- The part of the body pattern after the colon:
`\s*([A-Z]+[A-Z0-9.]*)\s+(\w+)\s+(buy|sell)$` with `re.IGNORECASE`.
All the quantifiers run over pairwise disjoint character classes, so
greedy maximal munch is equivalent to the backtracking semantics.
Returns the symbol, timeframe and action groups. -/
def matchBody (post : List Char) : Option (List Char × List Char × List Char) :=
  let r0 := post.dropWhile isWsCh
  match r0 with
  | [] => none
  | c :: _ =>
      if c.isAlpha = false then none
      else
        let sym := r0.takeWhile isSymRestCh
        let r1 := r0.dropWhile isSymRestCh
        if (r1.takeWhile isWsCh).isEmpty then none
        else
          let r2 := r1.dropWhile isWsCh
          let tf := r2.takeWhile isWordCh
          if tf.isEmpty then none
          else
            let r3 := r2.dropWhile isWordCh
            if (r3.takeWhile isWsCh).isEmpty then none
            else
              let r4 := r3.dropWhile isWsCh
              if decide (r4.map Char.toLower = "buy".data) ||
                 decide (r4.map Char.toLower = "sell".data) then
                some (sym, tf, r4)
              else none

/-- All ways to split the input at a `':'`, ordered by increasing
prefix length — the candidate matches of the lazy group `(.+?):`. -/
def colonSplits : List Char → List (List Char × List Char)
  | [] => []
  | c :: rest =>
      let tails := (colonSplits rest).map (fun pr => (c :: pr.1, pr.2))
      if c = ':' then ([], rest) :: tails else tails

/-- The lazy group `(.+?)` must be nonempty and `.` does not match a
newline. -/
def validHeaderGroup (pre : List Char) : Bool :=
  (!pre.isEmpty) && pre.all (fun c => !(c = '\n'))

/-- Backtracking over the candidate colon splits: the first split
whose body matches wins (the regex engine extends the lazy group to
the next colon on failure). -/
def findBodyMatch :
    List (List Char × List Char) → Option (List Char × List Char × List Char × List Char)
  | [] => none
  | (pre, post) :: rest =>
      if validHeaderGroup pre then
        match matchBody post with
        | some (sym, tf, act) => some (pre, sym, tf, act)
        | none => findBodyMatch rest
      else findBodyMatch rest

/-- `PivotReversalParser.parse`: reject unless `can_parse`; strip; run
the detailed body pattern; build the `TradingSignal` with the stripped
group 1, uppercased symbol, and the action keyword lowercased. -/
def parse_pivot (message : String) : Option TradingSignal :=
  if can_parse message = false then none
  else
    match findBodyMatch (colonSplits (pyStrip message).data) with
    | none => none
    | some (pre, sym, tf, act) =>
        let action_str := act.map Char.toLower
        if action_str = "buy".data then
          some ⟨pyStrip (String.mk pre), String.mk (sym.map Char.toUpper),
            String.mk tf, ActionType.buy⟩
        else if action_str = "sell".data then
          some ⟨pyStrip (String.mk pre), String.mk (sym.map Char.toUpper),
            String.mk tf, ActionType.sell⟩
        else none

/-- The detailed body pattern of `parse` runs exactly when `can_parse`
accepted the message. -/
def detailed_parse_attempted (message : String) : Bool :=
  can_parse message

/-- The routing path of `StrategyManager.process_webhook_message` up
to signal acceptance: parse, then compare `signal.strategy_name`
against the active strategy's name; both failures yield `None`. -/
def route (enabledName : String) (message : String) : Option TradingSignal :=
  match parse_pivot message with
  | none => none
  | some sig => if sig.strategy_name = enabledName then some sig else none

/-- The claim's notion of "prefix before the first `':'`". -/
def textBeforeFirstColon (s : String) : String :=
  String.mk (s.data.takeWhile (fun c => !(c = ':')))

/-- The single enabled strategy identifier used in the examples. -/
def enabledPivotName : String :=
  "Стратегия контрольной точки разворота (1, 1)"

/-- An alert from the same strategy family but with different
parenthesized numbers than the enabled identifier. -/
def mismatchedMsg : String :=
  "Стратегия контрольной точки разворота (2, 2): ETHUSDT 1 buy"

/-! ## Helper lemmas -/

theorem countCalls_append :
    ∀ l1 l2 : List RetryEv, countCalls (l1 ++ l2) = countCalls l1 + countCalls l2 := by
  intro l1 l2
  induction l1 with
  | nil => simp [countCalls]
  | cons e rest ih =>
      cases e <;> simp [countCalls, ih]
      omega

theorem countCalls_failTrace (max_retries : Nat) :
    ∀ n s, countCalls (retryFailTrace max_retries s n) = n := by
  intro n
  induction n with
  | zero => intro s; rfl
  | succ k ih =>
      intro s
      by_cases h : s + 1 < max_retries <;>
        simp [retryFailTrace, h, countCalls, countCalls_append, ih]

theorem retryGo_all_fail {E A : Type} (op : Nat → Except E A) (m : Nat)
    (f : Nat → E) (hop : ∀ n, n < m → op n = .error (f n)) :
    ∀ fuel attempt last, attempt + fuel = m → 1 ≤ fuel →
      retryGo op m attempt fuel last =
        (retryFailTrace m attempt fuel, .error (some (f (m - 1)))) := by
  intro fuel
  induction fuel with
  | zero => intro attempt last h h1; omega
  | succ k ih =>
      intro attempt last hsum _
      have hlt : attempt < m := by omega
      cases k with
      | zero =>
          rw [retryGo, hop attempt hlt]
          dsimp only
          rw [show retryGo op m (attempt + 1) 0 (some (f attempt)) =
            ([], .error (some (f attempt))) from rfl]
          have hif : ¬ (attempt + 1 < m) := by omega
          have hm1 : m - 1 = attempt := by omega
          simp [retryFailTrace, hif, hm1]
      | succ j =>
          rw [retryGo, hop attempt hlt]
          dsimp only
          rw [ih (attempt + 1) (some (f attempt)) (by omega) (by omega)]
          have hifp : attempt + 1 < m := by omega
          simp [retryFailTrace, hifp]

theorem retryGo_succeeds {E A : Type} (op : Nat → Except E A) (m : Nat)
    (f : Nat → E) (k : Nat) (a : A) (hk : k < m)
    (hfail : ∀ n, n < k → op n = .error (f n)) (hok : op k = .ok a) :
    ∀ fuel attempt last, attempt + fuel = m → attempt ≤ k →
      retryGo op m attempt fuel last =
        (retryFailTrace m attempt (k - attempt) ++ [.call k], .ok a) := by
  intro fuel
  induction fuel with
  | zero => intro attempt last h h1; omega
  | succ j ih =>
      intro attempt last hsum hle
      by_cases heq : attempt = k
      · subst heq
        rw [retryGo, hok]
        simp [retryFailTrace]
      · have hlt : attempt < k := by omega
        rw [retryGo, hfail attempt hlt]
        dsimp only
        rw [ih (attempt + 1) (some (f attempt)) (by omega) (by omega)]
        have hifp : attempt + 1 < m := by omega
        have hsub : k - attempt = (k - (attempt + 1)) + 1 := by omega
        rw [hsub]
        simp [retryFailTrace, hifp]

theorem runFilter_replicate_same (a : ActionType) :
    ∀ k, runFilter (some a) (List.replicate k a) = List.replicate k false := by
  intro k
  induction k with
  | zero => rfl
  | succ n ih =>
      simp [List.replicate, runFilter, should_process, ih]

theorem otherAction_ne (a : ActionType) : otherAction a ≠ a := by
  cases a <;> decide

theorem runFilter_alt_from_prev (n : Nat) :
    ∀ a, runFilter (some a) (altList (otherAction a) n) = List.replicate n true := by
  induction n with
  | zero => intro a; rfl
  | succ m ih =>
      intro a
      have hne : ¬ (a = otherAction a) := fun h => otherAction_ne a h.symm
      simp [altList, runFilter, should_process, hne, ih, List.replicate_succ]

theorem dropWhile_head_not {p : Char → Bool} :
    ∀ (l : List Char) (c : Char), (l.dropWhile p).head? = some c → p c = false := by
  intro l
  induction l with
  | nil => intro c h; simp [List.dropWhile] at h
  | cons x xs ih =>
      intro c h
      by_cases hx : p x = true
      · rw [List.dropWhile_cons, if_pos hx] at h
        exact ih c h
      · rw [List.dropWhile_cons, if_neg hx] at h
        simp only [List.head?] at h
        cases h
        exact Bool.eq_false_iff.mpr hx

theorem on_price_update_resting (cfg : MonitorConfig) (oid : Nat) (st : PMState)
    (p : ℚ) (i : Nat) (h : st.stop_loss_order_id = some i) :
    on_price_update cfg oid st p = (st, []) := by
  by_cases hm : st.is_monitoring = false
  · simp [on_price_update, hm]
  · cases hpd : st.position_data with
    | none => simp [on_price_update, hm, hpd]
    | some pd => simp [on_price_update, hm, hpd, h]

theorem run_ticks_resting (cfg : MonitorConfig) (oid : Nat) :
    ∀ (ticks : List ℚ) (st : PMState) (i : Nat), st.stop_loss_order_id = some i →
      run_ticks cfg oid st ticks = (st, []) := by
  intro ticks
  induction ticks with
  | nil => intro st i h; rfl
  | cons p rest ih =>
      intro st i h
      simp [run_ticks, on_price_update_resting cfg oid st p i h, ih st i h]

theorem on_price_update_armed (cfg : MonitorConfig) (oid : Nat) (sym : Option String)
    (pd : PositionData) (p : ℚ) :
    on_price_update cfg oid ⟨sym, some pd, none, true⟩ p =
      (if pnl_triggers cfg pd p then
        (⟨sym, some pd, some oid, true⟩,
         [XEv.placeStopOrder (place_stop_prices cfg pd).1 (place_stop_prices cfg pd).2])
      else (⟨sym, some pd, none, true⟩, [])) := by
  by_cases h : cfg.pnl_threshold_percent ≤ calculate_pnl_percent pd (calculate_pnl pd p)
  · simp [on_price_update, pnl_triggers, h]
  · simp [on_price_update, pnl_triggers, h]

theorem round_price_int (n : ℤ) : round_price (n : ℚ) = (n : ℚ) := by
  have h1 : ((n : ℚ) * 100) = ((n * 100 : ℤ) : ℚ) := by push_cast; ring
  rw [round_price, roundHalfEven, h1, Int.floor_intCast]
  have h2 : ((n * 100 : ℤ) : ℚ) - ((n * 100 : ℤ) : ℚ) < 1/2 := by norm_num
  simp only [h2, if_true]
  push_cast
  ring

/-! ## Claim theorems: duplicate filter and symbol normalization -/

/-- C5: DuplicateFilter behaviour (`PivotReversalFilter.should_process`):
the first signal is always accepted; a signal whose action equals the
recorded last action is rejected and leaves the state unchanged; a
differing action is accepted and updates the state; every signal of an
alternating sequence is accepted; in a run of identical consecutive
actions only the first is accepted. -/
theorem duplicate_filter_spec :
    (∀ a, should_process none a = (true, some a)) ∧
    (∀ a, should_process (some a) a = (false, some a)) ∧
    (∀ a b, a ≠ b → should_process (some a) b = (true, some b)) ∧
    (∀ a n, runFilter none (altList a n) = List.replicate n true) ∧
    (∀ a k, runFilter none (List.replicate (k + 1) a) =
      true :: List.replicate k false) ∧
    (∀ a k, runFilter (some a) (List.replicate k a) = List.replicate k false) := by
  refine ⟨fun a => rfl, fun a => by simp [should_process],
    fun a b h => by simp [should_process, h], ?_, ?_, runFilter_replicate_same⟩
  · intro a n
    cases n with
    | zero => rfl
    | succ m =>
        simp [altList, runFilter, should_process, List.replicate_succ,
          runFilter_alt_from_prev]
  · intro a k
    simp [List.replicate_succ, runFilter, should_process,
      runFilter_replicate_same]

/-- Witness for C5 at a concrete input: a SELL after a recorded BUY is
accepted and updates the filter state. -/
theorem duplicate_filter_spec_witness :
    should_process (some ActionType.buy) ActionType.sell =
      (true, some ActionType.sell) :=
  duplicate_filter_spec.2.2.1 ActionType.buy ActionType.sell (by decide)

/-- C9: `BaseExchange.normalize_symbol` uses Python `rstrip` semantics:
a symbol ending in `".P"` has *all* trailing characters from the set
`{'.', 'P'}` removed (so `"BTCP.P"` becomes `"BTC"`, not `"BTCP"`),
while a symbol not ending in `".P"` is returned unchanged. -/
theorem normalize_symbol_spec :
    normalize_symbol "BTCP.P" = "BTC" ∧
    normalize_symbol "ETHUSDC.P" = "ETHUSDC" ∧
    normalize_symbol "ETHUSDT" = "ETHUSDT" ∧
    (∀ s, endswith s ".P" = false → normalize_symbol s = s) ∧
    (∀ s, endswith s ".P" = true →
      ∃ t, s.data = (normalize_symbol s).data ++ t ∧
        (∀ c ∈ t, isDotP c = true) ∧
        (∀ c, (normalize_symbol s).data.getLast? = some c → isDotP c = false)) := by
  refine ⟨by decide, by decide, by decide, ?_, ?_⟩
  · intro s h
    simp [normalize_symbol, h]
  · intro s h
    have hn : (normalize_symbol s).data = rstripDotP s.data := by
      simp [normalize_symbol, h]
    refine ⟨(s.data.reverse.takeWhile isDotP).reverse, ?_, ?_, ?_⟩
    · rw [hn]
      have h2 := List.takeWhile_append_dropWhile (p := isDotP) (l := s.data.reverse)
      calc s.data = s.data.reverse.reverse := (List.reverse_reverse _).symm
        _ = (s.data.reverse.takeWhile isDotP ++ s.data.reverse.dropWhile isDotP).reverse := by
              rw [h2]
        _ = (s.data.reverse.dropWhile isDotP).reverse ++
              (s.data.reverse.takeWhile isDotP).reverse := List.reverse_append _ _
    · intro c hc
      rw [List.mem_reverse] at hc
      exact List.mem_takeWhile_imp hc
    · intro c hc
      rw [hn] at hc
      unfold rstripDotP at hc
      rw [List.getLast?_reverse] at hc
      exact dropWhile_head_not _ c hc

/-- Witness for C9 at concrete inputs: a symbol without the `".P"`
suffix is unchanged, and `"BTCP.P"` strips to `"BTC"`. -/
theorem normalize_symbol_spec_witness :
    normalize_symbol "ETHUSDT" = "ETHUSDT" ∧
    (∃ t, "BTCP.P".data = (normalize_symbol "BTCP.P").data ++ t ∧
      (∀ c ∈ t, isDotP c = true) ∧
      (∀ c, (normalize_symbol "BTCP.P").data.getLast? = some c → isDotP c = false)) :=
  ⟨normalize_symbol_spec.2.2.2.1 "ETHUSDT" (by decide),
   normalize_symbol_spec.2.2.2.2 "BTCP.P" (by decide)⟩

/-- C7: `retry_on_api_error` with `max_retries` total attempts: an
always-failing operation is invoked exactly `max_retries` times, with
the fixed sleep between consecutive invocations (explicit in the
trace), and the error finally raised is exactly the error of the last
invocation, unwrapped; if some attempt succeeds, its result is
returned and no further invocations occur. -/
theorem retry_handler_spec :
    ∀ (E A : Type) (op : Nat → Except E A) (m : Nat) (f : Nat → E), 1 ≤ m →
      ((∀ n, n < m → op n = .error (f n)) →
        retry_on_api_error op m =
          (retryFailTrace m 0 m, .error (some (f (m - 1)))) ∧
        countCalls (retry_on_api_error op m).1 = m) ∧
      (∀ k a, k < m → (∀ n, n < k → op n = .error (f n)) → op k = .ok a →
        retry_on_api_error op m =
          (retryFailTrace m 0 k ++ [.call k], .ok a) ∧
        countCalls (retry_on_api_error op m).1 = k + 1) := by
  intro E A op m f hm
  constructor
  · intro hop
    have h := retryGo_all_fail op m f hop m 0 none (by omega) hm
    refine ⟨h, ?_⟩
    rw [retry_on_api_error, h]
    exact countCalls_failTrace m m 0
  · intro k a hk hfail hok
    have h := retryGo_succeeds op m f k a hk hfail hok m 0 none (by omega) (by omega)
    simp only [Nat.sub_zero] at h
    refine ⟨h, ?_⟩
    rw [retry_on_api_error, h]
    simp [countCalls_append, countCalls_failTrace, countCalls]

/-- Witness for C7 at a concrete input: with three total attempts and
an operation failing with error `n` at attempt `n`, the trace is
call-sleep-call-sleep-call and the propagated error is the one of the
last (third) invocation. -/
theorem retry_handler_spec_witness :
    retry_on_api_error (fun n => (Except.error n : Except Nat Nat)) 3 =
      ([RetryEv.call 0, RetryEv.sleepDelay, RetryEv.call 1, RetryEv.sleepDelay,
        RetryEv.call 2], Except.error (some 2)) := by
  have h := (retry_handler_spec Nat Nat (fun n => Except.error n) 3 (fun n => n)
    (by decide)).1 (fun n _ => rfl)
  rw [h.1]
  rfl

/-- C3: over any sequence of price ticks delivered to an active
monitor with no resting stop order, exactly one `placeStopOrder` call
occurs when some tick reaches the PnL% threshold (none otherwise); as
long as no tick reaches the threshold nothing happens; and once a stop
order is resting, price ticks cause no further order calls at all (the
stop is never trailed). -/
theorem stop_loss_placement_spec :
    (∀ (cfg : MonitorConfig) (oid : Nat) (st : PMState) (ticks : List ℚ) (i : Nat),
      st.stop_loss_order_id = some i →
        run_ticks cfg oid st ticks = (st, [])) ∧
    (∀ (cfg : MonitorConfig) (oid : Nat) (sym : Option String) (pd : PositionData)
      (ticks : List ℚ),
      countPlace (run_ticks cfg oid ⟨sym, some pd, none, true⟩ ticks).2 =
        (if ticks.any (pnl_triggers cfg pd) then 1 else 0)) ∧
    (∀ (cfg : MonitorConfig) (oid : Nat) (sym : Option String) (pd : PositionData)
      (ticks : List ℚ), (∀ t ∈ ticks, pnl_triggers cfg pd t = false) →
      run_ticks cfg oid ⟨sym, some pd, none, true⟩ ticks =
        (⟨sym, some pd, none, true⟩, [])) := by
  refine ⟨fun cfg oid st ticks i h => run_ticks_resting cfg oid ticks st i h, ?_, ?_⟩
  · intro cfg oid sym pd ticks
    induction ticks with
    | nil => simp [run_ticks, countPlace]
    | cons p rest ih =>
        by_cases h : pnl_triggers cfg pd p
        · have hrr := run_ticks_resting cfg oid rest
            ⟨sym, some pd, some oid, true⟩ oid rfl
          simp [run_ticks, on_price_update_armed, h, hrr, countPlace, isPlaceEv]
        · simp only [run_ticks, on_price_update_armed, h, if_false, Bool.false_eq_true,
            List.nil_append, List.any_cons, Bool.false_or]
          exact ih
  · intro cfg oid sym pd ticks
    induction ticks with
    | nil => intro h; rfl
    | cons p rest ih =>
        intro h
        have hp : pnl_triggers cfg pd p = false := h p (by simp)
        have hrest : ∀ t ∈ rest, pnl_triggers cfg pd t = false :=
          fun t ht => h t (by simp [ht])
        simp [run_ticks, on_price_update_armed, hp, ih hrest]

/-- Witness for C3 at a concrete input: with a stop order already
resting, two further ticks produce no order calls and leave the state
unchanged. -/
theorem stop_loss_placement_spec_witness :
    run_ticks scenarioCfg 42 ⟨some "ETHUSDT", some scenarioPD, some 7, true⟩
      [2011, 2024] =
      (⟨some "ETHUSDT", some scenarioPD, some 7, true⟩, []) :=
  stop_loss_placement_spec.1 scenarioCfg 42 _ [2011, 2024] 7 rfl

/-- C4: the PnL formulas of `_calculate_pnl`, `_calculate_margin_used`
and `_calculate_pnl_percent`, and the concrete scenario: entry 2000,
size 1, LONG, leverage 10, threshold 5%, stop-loss 1.2%, gap 1.0 — a
tick at 2011 gives PnL 11 and PnL% 5.5, which triggers a stop order
with stop price 2024 and limit price 2023. -/
theorem pnl_and_stop_price_spec :
    (∀ (pd : PositionData) (price : ℚ), pd.side = PositionSide.Buy →
      calculate_pnl pd price = (price - pd.entry_price) * pd.size) ∧
    (∀ (pd : PositionData) (price : ℚ), pd.side = PositionSide.Sell →
      calculate_pnl pd price = (pd.entry_price - price) * pd.size) ∧
    (∀ leverage entry_price size : ℚ,
      calculate_margin_used leverage entry_price size =
        entry_price * size / leverage) ∧
    (∀ (pd : PositionData) (pnl : ℚ),
      calculate_pnl_percent pd pnl = pnl / pd.margin_used * 100) ∧
    (scenarioPD.margin_used = 200 ∧
     calculate_pnl scenarioPD 2011 = 11 ∧
     calculate_pnl_percent scenarioPD 11 = 11/2 ∧
     place_stop_prices scenarioCfg scenarioPD = (2024, 2023) ∧
     on_price_update scenarioCfg 42 scenarioState 2011 =
       ({ scenarioState with stop_loss_order_id := some 42 },
        [XEv.placeStopOrder 2024 2023])) := by
  refine ⟨fun pd price h => by simp [calculate_pnl, h],
    fun pd price h => by simp [calculate_pnl, h, PositionSide], ?_, ?_, ?_⟩
  · intro leverage entry_price size; rfl
  · intro pd pnl; rfl
  · have hm : scenarioPD.margin_used = 200 := by
      norm_num [scenarioPD, calculate_margin_used]
    have hpnl : calculate_pnl scenarioPD 2011 = 11 := by
      simp [calculate_pnl, scenarioPD]
      norm_num
    have hpct : calculate_pnl_percent scenarioPD 11 = 11/2 := by
      rw [calculate_pnl_percent, hm]
      norm_num
    have hside : scenarioPD.side = PositionSide.Buy := rfl
    have e1 : scenarioPD.entry_price +
        scenarioPD.entry_price * scenarioCfg.stop_loss_percent / 100 =
          ((2024 : ℤ) : ℚ) := by
      norm_num [scenarioPD, scenarioCfg]
    have e2 : ((2024 : ℤ) : ℚ) - scenarioCfg.price_difference_usdt =
        ((2023 : ℤ) : ℚ) := by
      norm_num [scenarioCfg]
    have hsp : place_stop_prices scenarioCfg scenarioPD = (2024, 2023) := by
      rw [place_stop_prices, if_pos hside]
      dsimp only
      rw [e1, e2, round_price_int, round_price_int]
      norm_num
    have ht : pnl_triggers scenarioCfg scenarioPD 2011 = true := by
      simp only [pnl_triggers, hpnl, hpct, decide_eq_true_eq]
      show scenarioCfg.pnl_threshold_percent ≤ 11/2
      norm_num [scenarioCfg]
    refine ⟨hm, hpnl, hpct, hsp, ?_⟩
    have h := on_price_update_armed scenarioCfg 42 (some "ETHUSDT") scenarioPD 2011
    rw [show scenarioState = ⟨some "ETHUSDT", some scenarioPD, none, true⟩ from rfl, h,
      ht, if_pos rfl, hsp]

/-- Witness for C4 at a concrete input: the LONG PnL formula evaluated
at the scenario position and price 2011. -/
theorem pnl_and_stop_price_spec_witness :
    calculate_pnl scenarioPD 2011 = (2011 - scenarioPD.entry_price) * scenarioPD.size :=
  pnl_and_stop_price_spec.1 scenarioPD 2011 rfl

/-- C10: calling `start_monitoring` while a monitor is active returns
`False` and changes nothing — same state (same symbol, same stop-loss
order id), no thread started, no exchange call; with no active
monitor it records the symbol, starts the thread and returns `True`. -/
theorem start_monitoring_spec :
    (∀ (st : PMState) (sym : String), st.is_monitoring = true →
      start_monitoring st sym = (false, st, [])) ∧
    (∀ (st : PMState) (sym : String), st.is_monitoring = false →
      start_monitoring st sym =
        (true, { st with symbol := some sym, is_monitoring := true },
         [XEv.startMonitorThread])) := by
  constructor <;> intro st sym h <;> simp [start_monitoring, h]

/-- Witness for C10 at a concrete input: an active monitor with a
resting stop order refuses a new `start_monitoring` call and is left
intact. -/
theorem start_monitoring_spec_witness :
    start_monitoring ⟨some "ETHUSDT", some scenarioPD, some 7, true⟩ "BTCUSDT" =
      (false, ⟨some "ETHUSDT", some scenarioPD, some 7, true⟩, []) :=
  start_monitoring_spec.1 ⟨some "ETHUSDT", some scenarioPD, some 7, true⟩
    "BTCUSDT" rfl

/-- Counterexample to C1 as stated: `PivotReversalSLStrategy.process_signal`
(one of the two functions the claim covers) closes and reopens even
when the open position's side already matches the signal's direction —
here a LONG position and a BUY signal still produce `closePosition`
and `openLong` calls (and processing reports success). -/
theorem matching_signal_sl_mutates :
    (⟨some PositionSide.Buy, 1000, 100, true, true⟩ : ExchangeOracle).position =
      some PositionSide.Buy ∧
    (⟨"SL", "ETHUSDT", "1", ActionType.buy⟩ : TradingSignal).action = ActionType.buy ∧
    XEv.closePosition ∈
      (sl_process_signal ⟨none, none, none, false⟩
        ⟨some PositionSide.Buy, 1000, 100, true, true⟩
        ⟨"SL", "ETHUSDT", "1", ActionType.buy⟩).2.2 ∧
    XEv.openLong ∈
      (sl_process_signal ⟨none, none, none, false⟩
        ⟨some PositionSide.Buy, 1000, 100, true, true⟩
        ⟨"SL", "ETHUSDT", "1", ActionType.buy⟩).2.2 ∧
    (sl_process_signal ⟨none, none, none, false⟩
      ⟨some PositionSide.Buy, 1000, 100, true, true⟩
      ⟨"SL", "ETHUSDT", "1", ActionType.buy⟩).1 = true := by
  have hb : ¬((1000 : ℚ) < 100) := by norm_num
  refine ⟨rfl, rfl, ?_, ?_, ?_⟩ <;>
    simp [sl_process_signal, sl_open_and_monitor, open_new_position,
      stop_monitoring, start_monitoring, hb]

/-- C1 (amended): for `PivotReversalStrategy.process_signal`, a signal
whose direction matches the side of the open position makes no
exchange mutation call — the only exchange interaction is the position
fetch — and processing reports success.  (The SL strategy variant does
not satisfy the original claim; see the counterexample.) -/
theorem matching_signal_pivot_noop :
    ∀ (ex : ExchangeOracle) (sig : TradingSignal) (side : PositionSide),
      ex.position = some side →
      ((sig.action = ActionType.buy ∧ side = PositionSide.Buy) ∨
       (sig.action = ActionType.sell ∧ side = PositionSide.Sell)) →
      pivot_process_signal ex sig = (true, [XEv.getPosition]) := by
  intro ex sig side hpos hmatch
  simp [pivot_process_signal, hpos, hmatch]

/-- Witness for the amended C1 at a concrete input: BUY signal against
an open LONG position is a pure no-op reporting success. -/
theorem matching_signal_pivot_noop_witness :
    pivot_process_signal ⟨some PositionSide.Buy, 1000, 100, true, true⟩
      ⟨"Стратегия контрольной точки разворота (1, 1)", "ETHUSDT", "1",
        ActionType.buy⟩ =
      (true, [XEv.getPosition]) :=
  matching_signal_pivot_noop _ _ PositionSide.Buy rfl (Or.inl ⟨rfl, rfl⟩)

/-- C2: processing a signal while a monitor is active first fully
stops the previous monitor (WebSocket stop and stop-order
cancellation) before any reconciler exchange call and before the new
monitor thread starts; `closePosition` always precedes any open call
(also in `PivotReversalStrategy._reverse_position`); and the trace
contains at most one monitor start and at most one cancellation, so
two monitors or two resting stop orders never coexist. -/
theorem serialized_signal_processing_spec :
    (∀ (mon : PMState) (ex : ExchangeOracle) (sig : TradingSignal),
      mon.is_monitoring = true →
      pBeforeQ isMonitorStopEv isReconcileEv (sl_process_signal mon ex sig).2.2 = true ∧
      pBeforeQ isMonitorStopEv isStartMonitorEv (sl_process_signal mon ex sig).2.2 = true ∧
      pBeforeQ isCloseEv isOpenEv (sl_process_signal mon ex sig).2.2 = true ∧
      (sl_process_signal mon ex sig).2.2.countP isStartMonitorEv ≤ 1 ∧
      (sl_process_signal mon ex sig).2.2.countP isCancelEv ≤ 1) ∧
    (∀ (ex : ExchangeOracle) (sig : TradingSignal),
      pBeforeQ isCloseEv isOpenEv (pivot_process_signal ex sig).2 = true) := by
  constructor
  · intro mon ex sig hm
    rcases mon with ⟨msym, mpd, mstop, mflag⟩
    obtain rfl : mflag = true := hm
    rcases ex with ⟨pos, bal, psize, co, oo⟩
    rcases sig with ⟨sn, ssym, stf, sa⟩
    by_cases hb : bal < psize <;>
      rcases mstop with _ | i <;> rcases pos with _ | side <;>
      cases co <;> cases oo <;> cases sa <;>
      simp [sl_process_signal, stop_monitoring, sl_open_and_monitor,
        open_new_position, start_monitoring, hb] <;>
      decide
  · intro ex sig
    rcases ex with ⟨pos, bal, psize, co, oo⟩
    rcases sig with ⟨sn, ssym, stf, sa⟩
    by_cases hb : bal < psize <;>
      rcases pos with _ | (_ | _) <;> cases co <;> cases oo <;> cases sa <;>
      simp [pivot_process_signal, reverse_position, open_new_position, hb] <;>
      decide

/-- Witness for C2 at a concrete input: with an active monitor holding
a resting stop order and an opposite open position, all monitor-stop
events precede all reconciler calls. -/
theorem serialized_signal_processing_spec_witness :
    pBeforeQ isMonitorStopEv isReconcileEv
      (sl_process_signal ⟨some "ETHUSDT", some scenarioPD, some 7, true⟩
        ⟨some PositionSide.Sell, 1000, 100, true, true⟩
        ⟨"SL", "ETHUSDT", "1", ActionType.buy⟩).2.2 = true :=
  (serialized_signal_processing_spec.1
    ⟨some "ETHUSDT", some scenarioPD, some 7, true⟩
    ⟨some PositionSide.Sell, 1000, 100, true, true⟩
    ⟨"SL", "ETHUSDT", "1", ActionType.buy⟩ rfl).1

/-- Counterexample to C8 as stated: a health state that has just
become unhealthy through the uptime condition alone (uptime one second
over the 24 h limit, memory at zero, both failure counters at zero)
already makes `_should_restart` return `True` — the restart threshold
for uptime equals the unhealthy threshold, it is not a separate,
strictly higher one. -/
theorem restart_at_unhealthy_threshold :
    is_unhealthy defaultHealthLimits ⟨0, 86401, 0, 0⟩ = true ∧
    should_restart defaultHealthLimits ⟨0, 86401, 0, 0⟩ = true ∧
    (0 : ℚ) ≤ defaultHealthLimits.max_memory_mb * 2 ∧
    (86401 : ℚ) = defaultHealthLimits.max_uptime_hours * 3600 + 1 := by
  refine ⟨?_, ?_, by norm_num [defaultHealthLimits], by norm_num [defaultHealthLimits]⟩
  · simp only [is_unhealthy, defaultHealthLimits, Bool.or_eq_true, decide_eq_true_eq]
    exact Or.inl (Or.inl (Or.inr (by norm_num)))
  · simp only [should_restart, defaultHealthLimits, Bool.or_eq_true, decide_eq_true_eq]
    exact Or.inl (Or.inr (by norm_num))

/-- C8 (amended): only the memory condition has a separate, strictly
higher critical threshold (twice `max_memory_mb`): memory-only
unhealthiness at or below twice the limit does not request a restart.
For uptime, consecutive self-test failures and consecutive
health-check failures the restart threshold equals the unhealthy
threshold, so first becoming unhealthy through any of those three
conditions already requests a restart; and every restart-requesting
state is unhealthy. -/
theorem health_restart_spec :
    ∀ st : HealthState,
      (st.memory_mb > 500 → st.memory_mb ≤ 1000 →
        st.uptime_seconds ≤ 86400 → st.self_test_failures < 3 →
        st.consecutive_failures < 3 →
        is_unhealthy defaultHealthLimits st = true ∧
        should_restart defaultHealthLimits st = false) ∧
      (st.uptime_seconds > 86400 → should_restart defaultHealthLimits st = true) ∧
      (st.self_test_failures ≥ 3 → should_restart defaultHealthLimits st = true) ∧
      (st.consecutive_failures ≥ 3 → should_restart defaultHealthLimits st = true) ∧
      (should_restart defaultHealthLimits st = true →
        is_unhealthy defaultHealthLimits st = true) := by
  intro st
  have h36 : (24 : ℚ) * 3600 = 86400 := by norm_num
  have h2x : (500 : ℚ) * 2 = 1000 := by norm_num
  refine ⟨?_, ?_, ?_, ?_, ?_⟩
  · intro h1 h2 h3 h4 h5
    constructor
    · simp only [is_unhealthy, defaultHealthLimits, Bool.or_eq_true, decide_eq_true_eq]
      exact Or.inl (Or.inl (Or.inl h1))
    · simp only [should_restart, defaultHealthLimits, Bool.or_eq_false_iff,
        decide_eq_false_iff_not, h36, h2x]
      refine ⟨⟨⟨?_, ?_⟩, ?_⟩, ?_⟩
      · omega
      · exact not_lt.mpr h2
      · exact not_lt.mpr h3
      · omega
  · intro h
    simp only [should_restart, defaultHealthLimits, Bool.or_eq_true,
      decide_eq_true_eq, h36]
    exact Or.inl (Or.inr h)
  · intro h
    simp only [should_restart, defaultHealthLimits, Bool.or_eq_true, decide_eq_true_eq]
    exact Or.inr h
  · intro h
    simp only [should_restart, defaultHealthLimits, Bool.or_eq_true, decide_eq_true_eq]
    exact Or.inl (Or.inl (Or.inl h))
  · intro h
    simp only [should_restart, defaultHealthLimits, Bool.or_eq_true,
      decide_eq_true_eq, h36, h2x] at h
    simp only [is_unhealthy, defaultHealthLimits, Bool.or_eq_true,
      decide_eq_true_eq, h36]
    rcases h with ((hc | hm) | hu) | hs
    · exact Or.inr hc
    · exact Or.inl (Or.inl (Or.inl (by linarith)))
    · exact Or.inl (Or.inl (Or.inr hu))
    · exact Or.inl (Or.inr hs)

/-- Witness for the amended C8 at a concrete input: memory at 600 MB
(over the 500 MB limit, under the 1000 MB critical level) is unhealthy
but requests no restart. -/
theorem health_restart_spec_witness :
    is_unhealthy defaultHealthLimits ⟨600, 0, 0, 0⟩ = true ∧
    should_restart defaultHealthLimits ⟨600, 0, 0, 0⟩ = false :=
  (health_restart_spec ⟨600, 0, 0, 0⟩).1 (show (600 : ℚ) > 500 by norm_num)
    (show (600 : ℚ) ≤ 1000 by norm_num) (show (0 : ℚ) ≤ 86400 by norm_num)
    (show (0 : Nat) < 3 by norm_num) (show (0 : Nat) < 3 by norm_num)

/-- Counterexample to C6 as stated: an alert whose prefix before the
first `':'` differs from the enabled identifier (different
parenthesized numbers) is *not* rejected before the body parse — the
pre-parse gate only checks the generic strategy-family pattern, so the
detailed parse runs and produces a signal, and `route` returns `None`
only through the name comparison performed *after* parsing. -/
theorem route_parses_before_name_check :
    textBeforeFirstColon mismatchedMsg ≠ enabledPivotName ∧
    detailed_parse_attempted mismatchedMsg = true ∧
    parse_pivot mismatchedMsg =
      some ⟨"Стратегия контрольной точки разворота (2, 2)", "ETHUSDT", "1",
        ActionType.buy⟩ ∧
    route enabledPivotName mismatchedMsg = none := by
  refine ⟨by decide, by decide, by decide, by decide⟩

/-- C6 (amended): the cheap pre-parse rejection exists but compares
against the strategy-family pattern, not the exact enabled
identifier: any message failing `can_parse` is rejected with no
detailed body parse and `route` returns `None`; a message that parses
but whose `strategy_name` differs from the enabled identifier is
rejected only after parsing, by the manager's comparison. -/
theorem route_family_gate_spec :
    (∀ (enabled message : String), can_parse message = false →
      detailed_parse_attempted message = false ∧ route enabled message = none) ∧
    (∀ (enabled message : String) (sig : TradingSignal),
      parse_pivot message = some sig → sig.strategy_name ≠ enabled →
      route enabled message = none) := by
  constructor
  · intro enabled message h
    exact ⟨h, by simp [route, parse_pivot, h]⟩
  · intro enabled message sig hp hne
    simp [route, hp, hne]

/-- Witness for the amended C6 at concrete inputs: a text outside the
strategy family is rejected with no detailed parse attempt. -/
theorem route_family_gate_spec_witness :
    detailed_parse_attempted "hello" = false ∧
    route enabledPivotName "hello" = none :=
  route_family_gate_spec.1 enabledPivotName "hello" (by decide)
